import Mathlib

/-!
Axure_ELSA, the AI provider layer (`PRD标准化规范/ai-config.js`).

A shallow embedding of `AIConfig` and of the class `AIService`: the dispatcher
`generate`, the four network adapters `generateWithOpenAI`, `generateWithClaude`,
`generateWithGemini`, `generateWithLocal`, and `mockGenerate`.

JavaScript promises are modelled by explicit state passing.  A call takes the
state of the outside world (the log of `fetch` calls issued so far, a clock in
milliseconds, and the lines written with `console.error`) and returns the value
the promise settles with, `Except.ok v` for a resolved promise and
`Except.error e` for a rejected one, together with the new state.  The backend
is a function from the request sent to what `fetch` answers.
-/

namespace AxureELSA

/-! ## JavaScript values -/

/-- A JavaScript number that is a safe integer: the magnitude is below `2^53`,
so that the number is that integer exactly and is written in plain decimal;
`negative` with the magnitude `0` is the value `-0`. -/
structure SafeInt where
  negative : Bool
  magnitude : Fin 9007199254740992

/-- Number to string: `0` and `-0` are both written `0`. -/
def SafeInt.toStr (n : SafeInt) : String :=
  if n.magnitude.val = 0 then "0"
  else (if n.negative then "-" else "") ++ toString n.magnitude.val

/-- JavaScript values that a decoded JSON body is made of, together with
`undefined`, which reading an absent property yields.  Numbers are the safe
integers. -/
inductive JVal where
  | undefined
  | null
  | bool (b : Bool)
  | num (n : SafeInt)
  | str (s : String)
  | arr (xs : List JVal)
  | obj (fields : List (String × JVal))

/-- What a promise of the service is rejected with.
`error m` is `new Error(m)`, the only exception the source constructs itself;
`typeError` is the engine's `TypeError` for reading a property of `undefined`
or `null`; `jsonSyntaxError` is the `SyntaxError` with which `response.json()`
rejects on a body that is not JSON; `fetchFailed` is the rejection of `fetch`
itself when no response arrives. -/
inductive Thrown where
  | error (message : String)
  | typeError
  | jsonSyntaxError
  | fetchFailed

/-- ToBoolean, as used by `||` and `!`. -/
def JVal.truthy : JVal → Bool
  | .undefined => false
  | .null => false
  | .bool b => b
  | .num n => n.magnitude.val != 0
  | .str s => s != ""
  | .arr _ => true
  | .obj _ => true

/-- Own property of an object by name; the first binding of a name counts. -/
def lookupField (k : String) : List (String × JVal) → Option JVal
  | [] => none
  | (k1, v) :: rest => if k1 = k then some v else lookupField k rest

/-- ToString of a decoded object: `Object.prototype.toString` gives
`[object Object]`, unless the object has a member `toString` of its own, which
is not a function, after which `valueOf` yields no primitive either and the
conversion throws a `TypeError`. -/
def objectToStr (fields : List (String × JVal)) : Except Thrown String :=
  match lookupField "toString" fields with
  | some _ => .error .typeError
  | none => .ok "[object Object]"

mutual
/-- ToString, as applied by a template literal `${v}`. -/
def JVal.toStr : JVal → Except Thrown String
  | .undefined => .ok "undefined"
  | .null => .ok "null"
  | .bool b => .ok (if b then "true" else "false")
  | .num n => .ok n.toStr
  | .str s => .ok s
  | .arr xs => JVal.joinElems xs
  | .obj fields => objectToStr fields
/-- The elements of an array joined with commas (`Array.prototype.join`). -/
def JVal.joinElems : List JVal → Except Thrown String
  | [] => .ok ""
  | x :: rest =>
    match JVal.elemStr x with
    | .error e => .error e
    | .ok a =>
      match JVal.joinRest rest with
      | .error e => .error e
      | .ok b => .ok (a ++ b)
/-- The elements after the first one, each preceded by a comma. -/
def JVal.joinRest : List JVal → Except Thrown String
  | [] => .ok ""
  | x :: rest =>
    match JVal.elemStr x with
    | .error e => .error e
    | .ok a =>
      match JVal.joinRest rest with
      | .error e => .error e
      | .ok b => .ok ("," ++ a ++ b)
/-- One element inside `join`: `undefined` and `null` give the empty string. -/
def JVal.elemStr : JVal → Except Thrown String
  | .undefined => .ok ""
  | .null => .ok ""
  | .bool b => .ok (if b then "true" else "false")
  | .num n => .ok n.toStr
  | .str s => .ok s
  | .arr xs => JVal.joinElems xs
  | .obj fields => objectToStr fields
end

/-- The JSON object `v` has the member `k` with the value `x`; the names of the
members of a decoded object are distinct. -/
def JVal.HasMember (v : JVal) (k : String) (x : JVal) : Prop :=
  ∃ fields, v = .obj fields ∧ (fields.map Prod.fst).Nodup ∧ (k, x) ∈ fields

/-- The property read `v.k` for the names the adapters read (`error`, `message`,
`choices`, `content`, `text`, `candidates`, `parts`, `response`), none of which
is a built-in property of a string, an array, a number or a boolean: a
`TypeError` on `undefined` and `null`, the own property of an object,
`undefined` everywhere else. -/
def getField (v : JVal) (k : String) : Except Thrown JVal :=
  match v with
  | .undefined => .error .typeError
  | .null => .error .typeError
  | .obj fields => .ok ((lookupField k fields).getD .undefined)
  | _ => .ok .undefined

/-- The element read `v[0]`: a `TypeError` on `undefined` and `null`, the first
element of an array, the first character of a string (one code unit), the
property `"0"` of an object, `undefined` when there is none or on a number or
boolean. -/
def getIndex0 (v : JVal) : Except Thrown JVal :=
  match v with
  | .undefined => .error .typeError
  | .null => .error .typeError
  | .arr xs => .ok (xs.head?.getD .undefined)
  | .str s => .ok (if s = "" then .undefined else .str (String.singleton (s.get 0)))
  | .obj fields => .ok ((lookupField "0" fields).getD .undefined)
  | _ => .ok .undefined

/-- The optional chain `v?.k`: `undefined` when `v` is `undefined` or `null`. -/
def getFieldOpt (v : JVal) (k : String) : Except Thrown JVal :=
  match v with
  | .undefined => .ok .undefined
  | .null => .ok .undefined
  | _ => getField v k

/-! ## Configuration (`AIConfig`) -/

/-- The object `AIConfig.apiKeys`; `none` is an absent key. -/
structure ApiKeys where
  openai : Option String
  claude : Option String
  gemini : Option String

/-- The object `AIConfig.endpoints` (`localModel` is the key `local`). -/
structure Endpoints where
  openai : String
  claude : String
  gemini : String
  localModel : String

/-- The object `AIConfig.models` (`localModel` is the key `local`). -/
structure Models where
  openai : String
  claude : String
  gemini : String
  localModel : String

/-- The object `AIConfig.requestConfig`; `timeout` is in milliseconds. -/
structure RequestConfig where
  temperature : Rat
  maxTokens : Nat
  timeout : Nat

/-- The configuration object an `AIService` is constructed with. -/
structure Config where
  provider : String
  apiKeys : ApiKeys
  endpoints : Endpoints
  models : Models
  requestConfig : RequestConfig

/-- The module-level default `AIConfig`. -/
def AIConfig : Config where
  provider := "mock"
  apiKeys := ⟨some "", some "", some ""⟩
  endpoints :=
    { openai := "https://api.openai.com/v1/chat/completions"
      claude := "https://api.anthropic.com/v1/messages"
      gemini := "https://generativelanguage.googleapis.com/v1beta/models/gemini-pro:generateContent"
      localModel := "http://localhost:11434/api/generate" }
  models :=
    { openai := "gpt-3.5-turbo"
      claude := "claude-3-sonnet-20240229"
      gemini := "gemini-pro"
      localModel := "llama2" }
  requestConfig := { temperature := 7 / 10, maxTokens := 2000, timeout := 30000 }

/-! ## Requests, responses and the outside world -/

/-- One entry of a `messages` array. -/
structure Message where
  role : String
  content : String

/-- One entry of a Gemini `parts` array. -/
structure Part where
  text : String

/-- One entry of a Gemini `contents` array. -/
structure Content where
  parts : List Part

/-- The object handed to `JSON.stringify` as the request body, one shape per
adapter, fields in source order. -/
inductive RequestBody where
  | openai (model : String) (messages : List Message) (temperature : Rat) (max_tokens : Nat)
  | claude (model : String) (max_tokens : Nat) (system : String) (messages : List Message)
  | gemini (contents : List Content) (temperature : Rat) (maxOutputTokens : Nat)
  | localModel (model : String) (prompt : String) (stream : Bool) (temperature : Rat)

/-- The two arguments of one `fetch` call. -/
structure Request where
  url : String
  method : String
  headers : List (String × String)
  body : RequestBody

/-- What the adapters read of a `Response`: the status code, its description
`statusText`, and the body decoded as JSON (`none` when the body is not JSON).
`latencyMs` is the time the response took to arrive. -/
structure Response where
  status : Nat
  statusText : String
  body : Option JVal
  latencyMs : Nat

/-- The getter `response.ok`: the status is in the range 200 to 299. -/
def Response.ok (r : Response) : Bool :=
  decide (200 ≤ r.status) && decide (r.status ≤ 299)

/-- The method `response.json()`. -/
def Response.json (r : Response) : Except Thrown JVal :=
  match r.body with
  | none => .error .jsonSyntaxError
  | some v => .ok v

/-- What `fetch` settles with. -/
inductive FetchResult where
  | rejected
  | responded (r : Response)

/-- The backend: the answer to each request. -/
abbrev Network := Request → FetchResult

/-- The observable effects of the service. -/
structure World where
  fetchLog : List Request
  clock : Nat
  console : List Thrown

/-- The state before anything has happened. -/
def World.init : World := ⟨[], 0, []⟩

/-- The global `fetch`: the call is logged, and the time the response takes
passes before the promise settles. -/
def fetch (net : Network) (req : Request) (w : World) : Except Thrown Response × World :=
  let w1 := { w with fetchLog := w.fetchLog ++ [req] }
  match net req with
  | .rejected => (.error .fetchFailed, w1)
  | .responded r => (.ok r, { w1 with clock := w1.clock + r.latencyMs })

/-! ## The service (`class AIService`) -/

/-- The text `mockGenerate` resolves with. -/
def mockText : String := "这是模拟生成的内容。请配置真实的AI API以获得智能生成结果。"

/-- The method `mockGenerate`: a promise that a 500 ms timer resolves with the
fixed text; the prompt is not read. -/
def mockGenerate (_prompt : String) (w : World) : Except Thrown JVal × World :=
  (.ok (.str mockText), { w with clock := w.clock + 500 })

/-- The method `generateWithOpenAI`. -/
def generateWithOpenAI (config : Config) (net : Network) (prompt systemPrompt : String)
    (w : World) : Except Thrown JVal × World :=
  match config.apiKeys.openai with
  | none => (.error (.error "请先配置OpenAI API Key"), w)
  | some apiKey =>
    if apiKey = "" then (.error (.error "请先配置OpenAI API Key"), w) else
    let messages : List Message :=
      (if systemPrompt ≠ "" then [⟨"system", systemPrompt⟩] else []) ++ [⟨"user", prompt⟩]
    let request : Request :=
      { url := config.endpoints.openai
        method := "POST"
        headers := [("Content-Type", "application/json"), ("Authorization", "Bearer " ++ apiKey)]
        body := .openai config.models.openai messages config.requestConfig.temperature
          config.requestConfig.maxTokens }
    match fetch net request w with
    | (.error e, w1) => (.error e, w1)
    | (.ok response, w1) =>
      if !response.ok then
        (do
          let error ← response.json
          let inner ← getField error "error"
          let message ← getFieldOpt inner "message"
          let detail ← if message.truthy then message.toStr else pure response.statusText
          throw (.error ("OpenAI API错误: " ++ detail)), w1)
      else
        (do
          let data ← response.json
          let choices ← getField data "choices"
          let first ← getIndex0 choices
          let message ← getField first "message"
          getField message "content", w1)

/-- The method `generateWithClaude`. -/
def generateWithClaude (config : Config) (net : Network) (prompt systemPrompt : String)
    (w : World) : Except Thrown JVal × World :=
  match config.apiKeys.claude with
  | none => (.error (.error "请先配置Claude API Key"), w)
  | some apiKey =>
    if apiKey = "" then (.error (.error "请先配置Claude API Key"), w) else
    let request : Request :=
      { url := config.endpoints.claude
        method := "POST"
        headers := [("Content-Type", "application/json"), ("x-api-key", apiKey),
          ("anthropic-version", "2023-06-01")]
        body := .claude config.models.claude config.requestConfig.maxTokens systemPrompt
          [⟨"user", prompt⟩] }
    match fetch net request w with
    | (.error e, w1) => (.error e, w1)
    | (.ok response, w1) =>
      if !response.ok then
        (do
          let error ← response.json
          let inner ← getField error "error"
          let message ← getFieldOpt inner "message"
          let detail ← if message.truthy then message.toStr else pure response.statusText
          throw (.error ("Claude API错误: " ++ detail)), w1)
      else
        (do
          let data ← response.json
          let content ← getField data "content"
          let first ← getIndex0 content
          getField first "text", w1)

/-- The method `generateWithGemini`. -/
def generateWithGemini (config : Config) (net : Network) (prompt systemPrompt : String)
    (w : World) : Except Thrown JVal × World :=
  match config.apiKeys.gemini with
  | none => (.error (.error "请先配置Gemini API Key"), w)
  | some apiKey =>
    if apiKey = "" then (.error (.error "请先配置Gemini API Key"), w) else
    let fullPrompt := if systemPrompt ≠ "" then systemPrompt ++ "\n\n" ++ prompt else prompt
    let url := config.endpoints.gemini ++ "?key=" ++ apiKey
    let request : Request :=
      { url := url
        method := "POST"
        headers := [("Content-Type", "application/json")]
        body := .gemini [⟨[⟨fullPrompt⟩]⟩] config.requestConfig.temperature
          config.requestConfig.maxTokens }
    match fetch net request w with
    | (.error e, w1) => (.error e, w1)
    | (.ok response, w1) =>
      if !response.ok then
        (do
          let error ← response.json
          let inner ← getField error "error"
          let message ← getFieldOpt inner "message"
          let detail ← if message.truthy then message.toStr else pure response.statusText
          throw (.error ("Gemini API错误: " ++ detail)), w1)
      else
        (do
          let data ← response.json
          let candidates ← getField data "candidates"
          let first ← getIndex0 candidates
          let content ← getField first "content"
          let parts ← getField content "parts"
          let part ← getIndex0 parts
          getField part "text", w1)

/-- The method `generateWithLocal` (Ollama); it needs no API key. -/
def generateWithLocal (config : Config) (net : Network) (prompt systemPrompt : String)
    (w : World) : Except Thrown JVal × World :=
  let fullPrompt := if systemPrompt ≠ "" then systemPrompt ++ "\n\n" ++ prompt else prompt
  let request : Request :=
    { url := config.endpoints.localModel
      method := "POST"
      headers := [("Content-Type", "application/json")]
      body := .localModel config.models.localModel fullPrompt false
        config.requestConfig.temperature }
  match fetch net request w with
  | (.error e, w1) => (.error e, w1)
  | (.ok response, w1) =>
    if !response.ok then
      (.error (.error ("本地模型错误: " ++ response.statusText)), w1)
    else
      (do
        let data ← response.json
        getField data "response", w1)

/-- The method `generate(prompt, systemPrompt = '')`; an omitted system prompt
is `none`.  The `catch` clause writes the exception to the console and throws
it again. -/
def generate (config : Config) (net : Network) (prompt : String) (systemPrompt : Option String)
    (w : World) : Except Thrown JVal × World :=
  let systemPrompt := systemPrompt.getD ""
  let provider := config.provider
  if provider = "mock" then mockGenerate prompt w else
  let attempt : Except Thrown JVal × World :=
    if provider = "openai" then generateWithOpenAI config net prompt systemPrompt w
    else if provider = "claude" then generateWithClaude config net prompt systemPrompt w
    else if provider = "gemini" then generateWithGemini config net prompt systemPrompt w
    else if provider = "local" then generateWithLocal config net prompt systemPrompt w
    else (.error (.error ("不支持的AI提供商: " ++ provider)), w)
  match attempt with
  | (.error error, w1) => (.error error, { w1 with console := w1.console ++ [error] })
  | (.ok text, w1) => (.ok text, w1)

/-! ## Sample configurations and backends -/

/-- A backend that answers every request with the response `r`. -/
def answering (r : Response) : Network := fun _ => .responded r

/-- The default configuration switched to `provider`, with the key `"sk-test"`
entered for every provider that needs one. -/
def keyedConfig (provider : String) : Config :=
  { AIConfig with provider := provider, apiKeys := ⟨some "sk-test", some "sk-test", some "sk-test"⟩ }

/-- The default configuration switched to `provider`, its keys left empty. -/
def unkeyedConfig (provider : String) : Config :=
  { AIConfig with provider := provider }

/-- A success body of the OpenAI shape with two choices:
`{"id":"c1","choices":[{"message":{"role":"assistant","content":"X in short."}},
{"message":{"role":"assistant","content":"Another."}}]}`. -/
def openaiBody : JVal :=
  .obj [("id", .str "c1"),
    ("choices", .arr [
      .obj [("message", .obj [("role", .str "assistant"), ("content", .str "X in short.")])],
      .obj [("message", .obj [("role", .str "assistant"), ("content", .str "Another.")])]])]

/-- A success body of the Claude shape with two content blocks:
`{"content":[{"type":"text","text":"X in short."},{"type":"text","text":"Another."}]}`. -/
def claudeBody : JVal :=
  .obj [("content", .arr [
    .obj [("type", .str "text"), ("text", .str "X in short.")],
    .obj [("type", .str "text"), ("text", .str "Another.")]])]

/-- A success body of the Gemini shape with two candidates, the first of two
parts: `{"candidates":[{"content":{"parts":[{"text":"X in short."},
{"text":"Another."}]}},{"content":{"parts":[{"text":"Elsewhere."}]}}]}`. -/
def geminiBody : JVal :=
  .obj [("candidates", .arr [
    .obj [("content", .obj [("parts", .arr [
      .obj [("text", .str "X in short.")], .obj [("text", .str "Another.")]])])],
    .obj [("content", .obj [("parts", .arr [.obj [("text", .str "Elsewhere.")]])])]])]

/-- A success body of the Ollama shape whose text is empty:
`{"model":"llama2","response":""}`. -/
def localBody : JVal :=
  .obj [("model", .str "llama2"), ("response", .str "")]

/-! ## Auxiliary facts -/

/-- The `catch` clause of `generate` changes neither the outcome nor the
`fetch` log nor the clock of the adapter it wraps. -/
theorem generate_dispatch (config : Config) (net : Network) (prompt : String)
    (systemPrompt : Option String) (w : World) (adapter : Except Thrown JVal × World)
    (hmock : config.provider ≠ "mock")
    (h : (if config.provider = "openai" then
            generateWithOpenAI config net prompt (systemPrompt.getD "") w
          else if config.provider = "claude" then
            generateWithClaude config net prompt (systemPrompt.getD "") w
          else if config.provider = "gemini" then
            generateWithGemini config net prompt (systemPrompt.getD "") w
          else if config.provider = "local" then
            generateWithLocal config net prompt (systemPrompt.getD "") w
          else (.error (.error ("不支持的AI提供商: " ++ config.provider)), w)) = adapter) :
    (generate config net prompt systemPrompt w).1 = adapter.1 ∧
      (generate config net prompt systemPrompt w).2.fetchLog = adapter.2.fetchLog ∧
      (generate config net prompt systemPrompt w).2.clock = adapter.2.clock := by
  unfold generate
  simp only [hmock, if_false, h]
  rcases adapter with ⟨_ | _, _⟩ <;> simp

/-- With the provider `openai`, `generate` settles as `generateWithOpenAI` does. -/
theorem generate_openai (config : Config) (net : Network) (prompt : String)
    (systemPrompt : Option String) (w : World) (h : config.provider = "openai") :
    (generate config net prompt systemPrompt w).1 =
        (generateWithOpenAI config net prompt (systemPrompt.getD "") w).1 ∧
      (generate config net prompt systemPrompt w).2.fetchLog =
        (generateWithOpenAI config net prompt (systemPrompt.getD "") w).2.fetchLog ∧
      (generate config net prompt systemPrompt w).2.clock =
        (generateWithOpenAI config net prompt (systemPrompt.getD "") w).2.clock :=
  generate_dispatch config net prompt systemPrompt w _ (by rw [h]; decide) (by simp [h])

/-- With the provider `claude`, `generate` settles as `generateWithClaude` does. -/
theorem generate_claude (config : Config) (net : Network) (prompt : String)
    (systemPrompt : Option String) (w : World) (h : config.provider = "claude") :
    (generate config net prompt systemPrompt w).1 =
        (generateWithClaude config net prompt (systemPrompt.getD "") w).1 ∧
      (generate config net prompt systemPrompt w).2.fetchLog =
        (generateWithClaude config net prompt (systemPrompt.getD "") w).2.fetchLog ∧
      (generate config net prompt systemPrompt w).2.clock =
        (generateWithClaude config net prompt (systemPrompt.getD "") w).2.clock :=
  generate_dispatch config net prompt systemPrompt w _ (by rw [h]; decide) (by simp [h])

/-- With the provider `gemini`, `generate` settles as `generateWithGemini` does. -/
theorem generate_gemini (config : Config) (net : Network) (prompt : String)
    (systemPrompt : Option String) (w : World) (h : config.provider = "gemini") :
    (generate config net prompt systemPrompt w).1 =
        (generateWithGemini config net prompt (systemPrompt.getD "") w).1 ∧
      (generate config net prompt systemPrompt w).2.fetchLog =
        (generateWithGemini config net prompt (systemPrompt.getD "") w).2.fetchLog ∧
      (generate config net prompt systemPrompt w).2.clock =
        (generateWithGemini config net prompt (systemPrompt.getD "") w).2.clock :=
  generate_dispatch config net prompt systemPrompt w _ (by rw [h]; decide) (by simp [h])

/-- With the provider `local`, `generate` settles as `generateWithLocal` does. -/
theorem generate_local (config : Config) (net : Network) (prompt : String)
    (systemPrompt : Option String) (w : World) (h : config.provider = "local") :
    (generate config net prompt systemPrompt w).1 =
        (generateWithLocal config net prompt (systemPrompt.getD "") w).1 ∧
      (generate config net prompt systemPrompt w).2.fetchLog =
        (generateWithLocal config net prompt (systemPrompt.getD "") w).2.fetchLog ∧
      (generate config net prompt systemPrompt w).2.clock =
        (generateWithLocal config net prompt (systemPrompt.getD "") w).2.clock :=
  generate_dispatch config net prompt systemPrompt w _ (by rw [h]; decide) (by simp [h])

/-- Every `fetch` call adds exactly its request to the log. -/
theorem fetch_log (net : Network) (req : Request) (w : World) :
    (fetch net req w).2.fetchLog = w.fetchLog ++ [req] := by
  unfold fetch
  split <;> rfl

/-- The one request `generateWithOpenAI` sends once a key is configured. -/
theorem openai_log (config : Config) (net : Network) (p s k : String) (w : World)
    (hk : config.apiKeys.openai = some k) (hne : k ≠ "") :
    (generateWithOpenAI config net p s w).2.fetchLog = w.fetchLog ++
      [⟨config.endpoints.openai, "POST",
        [("Content-Type", "application/json"), ("Authorization", "Bearer " ++ k)],
        .openai config.models.openai
          ((if s ≠ "" then [⟨"system", s⟩] else []) ++ [⟨"user", p⟩])
          config.requestConfig.temperature config.requestConfig.maxTokens⟩] := by
  unfold generateWithOpenAI
  simp only [hk, hne, if_false]
  generalize hfr : fetch net _ w = fr
  have h := congrArg (fun x => x.2.fetchLog) hfr
  simp only [fetch_log] at h
  rcases fr with ⟨_ | r, w1⟩
  · exact h.symm
  · simp only []
    split <;> exact h.symm

/-- The one request `generateWithClaude` sends once a key is configured. -/
theorem claude_log (config : Config) (net : Network) (p s k : String) (w : World)
    (hk : config.apiKeys.claude = some k) (hne : k ≠ "") :
    (generateWithClaude config net p s w).2.fetchLog = w.fetchLog ++
      [⟨config.endpoints.claude, "POST",
        [("Content-Type", "application/json"), ("x-api-key", k),
          ("anthropic-version", "2023-06-01")],
        .claude config.models.claude config.requestConfig.maxTokens s [⟨"user", p⟩]⟩] := by
  unfold generateWithClaude
  simp only [hk, hne, if_false]
  generalize hfr : fetch net _ w = fr
  have h := congrArg (fun x => x.2.fetchLog) hfr
  simp only [fetch_log] at h
  rcases fr with ⟨_ | r, w1⟩
  · exact h.symm
  · simp only []
    split <;> exact h.symm

/-- The one request `generateWithGemini` sends once a key is configured. -/
theorem gemini_log (config : Config) (net : Network) (p s k : String) (w : World)
    (hk : config.apiKeys.gemini = some k) (hne : k ≠ "") :
    (generateWithGemini config net p s w).2.fetchLog = w.fetchLog ++
      [⟨config.endpoints.gemini ++ "?key=" ++ k, "POST",
        [("Content-Type", "application/json")],
        .gemini [⟨[⟨if s ≠ "" then s ++ "\n\n" ++ p else p⟩]⟩]
          config.requestConfig.temperature config.requestConfig.maxTokens⟩] := by
  unfold generateWithGemini
  simp only [hk, hne, if_false]
  generalize hfr : fetch net _ w = fr
  have h := congrArg (fun x => x.2.fetchLog) hfr
  simp only [fetch_log] at h
  rcases fr with ⟨_ | r, w1⟩
  · exact h.symm
  · simp only []
    split <;> exact h.symm

/-- The one request `generateWithLocal` sends. -/
theorem local_log (config : Config) (net : Network) (p s : String) (w : World) :
    (generateWithLocal config net p s w).2.fetchLog = w.fetchLog ++
      [⟨config.endpoints.localModel, "POST",
        [("Content-Type", "application/json")],
        .localModel config.models.localModel (if s ≠ "" then s ++ "\n\n" ++ p else p) false
          config.requestConfig.temperature⟩] := by
  unfold generateWithLocal
  simp only []
  generalize hfr : fetch net _ w = fr
  have h := congrArg (fun x => x.2.fetchLog) hfr
  simp only [fetch_log] at h
  rcases fr with ⟨_ | r, w1⟩
  · exact h.symm
  · simp only []
    split <;> exact h.symm

/-- A member of an object with distinct names is what `lookupField` finds. -/
theorem lookupField_of_mem (k : String) (x : JVal) (fields : List (String × JVal))
    (hnd : (fields.map Prod.fst).Nodup) (hmem : (k, x) ∈ fields) :
    lookupField k fields = some x := by
  induction fields with
  | nil => simp at hmem
  | cons head rest ih =>
    obtain ⟨k1, v1⟩ := head
    simp only [List.map_cons, List.nodup_cons, List.mem_map, not_exists, not_and] at hnd
    rcases List.mem_cons.mp hmem with heq | hrest
    · cases heq
      simp [lookupField]
    · have hne : k1 ≠ k := fun h => hnd.1 (k, x) hrest h.symm
      simp [lookupField, hne, ih hnd.2 hrest]

/-- Reading a member of a decoded object yields its value. -/
theorem getField_of_hasMember (v : JVal) (k : String) (x : JVal) (h : v.HasMember k x) :
    getField v k = .ok x := by
  obtain ⟨fields, rfl, hnd, hmem⟩ := h
  simp [getField, lookupField_of_mem k x fields hnd hmem]

/-- A sequence of steps that ends well began well. -/
theorem bind_ok {α β : Type} {x : Except Thrown α} {f : α → Except Thrown β} {v : β}
    (h : (x >>= f) = .ok v) : ∃ a, x = .ok a ∧ f a = .ok v := by
  cases x with
  | error e => simp [bind, Except.bind] at h
  | ok a => exact ⟨a, rfl, h⟩

/-- A body that `response.json()` decodes is JSON. -/
theorem json_ok (r : Response) (d : JVal) (h : r.json = .ok d) : r.body = some d := by
  unfold Response.json at h
  split at h
  · simp at h
  · rename_i d0 hb
    cases h
    exact hb

/-- A `fetch` that yields a response was answered with it by the backend. -/
theorem fetch_ok (net : Network) (req : Request) (w w1 : World) (r : Response)
    (h : fetch net req w = (.ok r, w1)) :
    net req = .responded r ∧ w1.fetchLog = w.fetchLog ++ [req] := by
  unfold fetch at h
  split at h
  · simp at h
  · rename_i r0 hnet
    simp only [Prod.mk.injEq, Except.ok.injEq] at h
    obtain ⟨h1, h2⟩ := h
    subst h1
    subst h2
    exact ⟨hnet, rfl⟩

/-- `generateWithOpenAI` resolves only on a success status with a JSON body. -/
theorem openai_resolves (config : Config) (net : Network) (p s k : String) (w : World)
    (v : JVal) (hk : config.apiKeys.openai = some k) (hne : k ≠ "")
    (h : (generateWithOpenAI config net p s w).1 = .ok v) :
    ∃ req r d, (generateWithOpenAI config net p s w).2.fetchLog = w.fetchLog ++ [req] ∧
      net req = .responded r ∧ r.ok = true ∧ r.body = some d := by
  unfold generateWithOpenAI at h ⊢
  simp only [hk, hne, if_false] at h ⊢
  generalize hfr : fetch net _ w = fr at h ⊢
  rcases fr with ⟨e | r, w1⟩
  · simp at h
  · obtain ⟨hnet, hlog⟩ := fetch_ok _ _ _ _ _ hfr
    simp only [] at h ⊢
    by_cases hok : r.ok = true
    · simp only [hok, Bool.not_true, Bool.false_eq_true, if_false] at h ⊢
      obtain ⟨d, hd, -⟩ := bind_ok h
      exact ⟨_, r, d, hlog, hnet, hok, json_ok r d hd⟩
    · simp only [Bool.not_eq_true] at hok
      simp only [hok, Bool.not_false, if_true] at h
      obtain ⟨_, -, h⟩ := bind_ok h
      obtain ⟨_, -, h⟩ := bind_ok h
      obtain ⟨_, -, h⟩ := bind_ok h
      split at h <;>
        (obtain ⟨_, -, h⟩ := bind_ok h
         cases h)

/-- `generateWithClaude` resolves only on a success status with a JSON body. -/
theorem claude_resolves (config : Config) (net : Network) (p s k : String) (w : World)
    (v : JVal) (hk : config.apiKeys.claude = some k) (hne : k ≠ "")
    (h : (generateWithClaude config net p s w).1 = .ok v) :
    ∃ req r d, (generateWithClaude config net p s w).2.fetchLog = w.fetchLog ++ [req] ∧
      net req = .responded r ∧ r.ok = true ∧ r.body = some d := by
  unfold generateWithClaude at h ⊢
  simp only [hk, hne, if_false] at h ⊢
  generalize hfr : fetch net _ w = fr at h ⊢
  rcases fr with ⟨e | r, w1⟩
  · simp at h
  · obtain ⟨hnet, hlog⟩ := fetch_ok _ _ _ _ _ hfr
    simp only [] at h ⊢
    by_cases hok : r.ok = true
    · simp only [hok, Bool.not_true, Bool.false_eq_true, if_false] at h ⊢
      obtain ⟨d, hd, -⟩ := bind_ok h
      exact ⟨_, r, d, hlog, hnet, hok, json_ok r d hd⟩
    · simp only [Bool.not_eq_true] at hok
      simp only [hok, Bool.not_false, if_true] at h
      obtain ⟨_, -, h⟩ := bind_ok h
      obtain ⟨_, -, h⟩ := bind_ok h
      obtain ⟨_, -, h⟩ := bind_ok h
      split at h <;>
        (obtain ⟨_, -, h⟩ := bind_ok h
         cases h)

/-- `generateWithGemini` resolves only on a success status with a JSON body. -/
theorem gemini_resolves (config : Config) (net : Network) (p s k : String) (w : World)
    (v : JVal) (hk : config.apiKeys.gemini = some k) (hne : k ≠ "")
    (h : (generateWithGemini config net p s w).1 = .ok v) :
    ∃ req r d, (generateWithGemini config net p s w).2.fetchLog = w.fetchLog ++ [req] ∧
      net req = .responded r ∧ r.ok = true ∧ r.body = some d := by
  unfold generateWithGemini at h ⊢
  simp only [hk, hne, if_false] at h ⊢
  generalize hfr : fetch net _ w = fr at h ⊢
  rcases fr with ⟨e | r, w1⟩
  · simp at h
  · obtain ⟨hnet, hlog⟩ := fetch_ok _ _ _ _ _ hfr
    simp only [] at h ⊢
    by_cases hok : r.ok = true
    · simp only [hok, Bool.not_true, Bool.false_eq_true, if_false] at h ⊢
      obtain ⟨d, hd, -⟩ := bind_ok h
      exact ⟨_, r, d, hlog, hnet, hok, json_ok r d hd⟩
    · simp only [Bool.not_eq_true] at hok
      simp only [hok, Bool.not_false, if_true] at h
      obtain ⟨_, -, h⟩ := bind_ok h
      obtain ⟨_, -, h⟩ := bind_ok h
      obtain ⟨_, -, h⟩ := bind_ok h
      split at h <;>
        (obtain ⟨_, -, h⟩ := bind_ok h
         cases h)

/-- `generateWithLocal` resolves only on a success status with a JSON body. -/
theorem local_resolves (config : Config) (net : Network) (p s : String) (w : World)
    (v : JVal) (h : (generateWithLocal config net p s w).1 = .ok v) :
    ∃ req r d, (generateWithLocal config net p s w).2.fetchLog = w.fetchLog ++ [req] ∧
      net req = .responded r ∧ r.ok = true ∧ r.body = some d := by
  unfold generateWithLocal at h ⊢
  simp only [] at h ⊢
  generalize hfr : fetch net _ w = fr at h ⊢
  rcases fr with ⟨e | r, w1⟩
  · simp at h
  · obtain ⟨hnet, hlog⟩ := fetch_ok _ _ _ _ _ hfr
    simp only [] at h ⊢
    by_cases hok : r.ok = true
    · simp only [hok, Bool.not_true, Bool.false_eq_true, if_false] at h ⊢
      obtain ⟨d, hd, -⟩ := bind_ok h
      exact ⟨_, r, d, hlog, hnet, hok, json_ok r d hd⟩
    · simp only [Bool.not_eq_true] at hok
      simp only [hok, Bool.not_false, if_true] at h
      cases h

/-! ## The mock provider -/

/-- C1: with the provider `mock`, `generate` resolves with the fixed text
`mockText` whatever the prompt, the system prompt, the backend and the rest of
the configuration are, and the `fetch` log is left as it was: no outbound call
is made. -/
theorem generate_mock_fixed (config : Config) (net : Network) (prompt : String)
    (systemPrompt : Option String) (w : World) (h : config.provider = "mock") :
    (generate config net prompt systemPrompt w).1 = .ok (.str mockText) ∧
      (generate config net prompt systemPrompt w).2.fetchLog = w.fetchLog := by
  simp [generate, h, mockGenerate]

/-- The default configuration, a dead backend and two arbitrary prompts. -/
theorem generate_mock_fixed_witness :
    AIConfig.provider = "mock" ∧
      (generate AIConfig (fun _ => .rejected) "Summarize X" (some "You are concise.")
          World.init).1 = .ok (.str mockText) ∧
      (generate AIConfig (fun _ => .rejected) "Summarize X" (some "You are concise.")
          World.init).2.fetchLog = World.init.fetchLog :=
  ⟨rfl, generate_mock_fixed AIConfig (fun _ => .rejected) "Summarize X"
    (some "You are concise.") World.init rfl⟩

/-! ## Failures before any request -/

/-- C2: when the provider is `openai`, `claude` or `gemini` and its entry of
`apiKeys` is absent or the empty string, `generate` is rejected with the error
`请先配置<Name> API Key`, where `<Name>` is the provider written `OpenAI`,
`Claude` or `Gemini`, and the `fetch` log is left as it was. -/
theorem generate_missing_key (config : Config) (net : Network) (prompt : String)
    (systemPrompt : Option String) (w : World) (name : String) (key : Option String)
    (hprov : config.provider = "openai" ∧ name = "OpenAI" ∧ config.apiKeys.openai = key ∨
      config.provider = "claude" ∧ name = "Claude" ∧ config.apiKeys.claude = key ∨
      config.provider = "gemini" ∧ name = "Gemini" ∧ config.apiKeys.gemini = key)
    (hkey : key = none ∨ key = some "") :
    (generate config net prompt systemPrompt w).1 =
        .error (.error ("请先配置" ++ name ++ " API Key")) ∧
      (generate config net prompt systemPrompt w).2.fetchLog = w.fetchLog := by
  rcases hprov with ⟨hp, hn, hk⟩ | ⟨hp, hn, hk⟩ | ⟨hp, hn, hk⟩
  · obtain ⟨h1, h2, -⟩ := generate_openai config net prompt systemPrompt w hp
    rw [h1, h2]; subst hn
    rcases hkey with hkey | hkey <;> rw [hkey] at hk <;>
      simp [generateWithOpenAI, hk]
  · obtain ⟨h1, h2, -⟩ := generate_claude config net prompt systemPrompt w hp
    rw [h1, h2]; subst hn
    rcases hkey with hkey | hkey <;> rw [hkey] at hk <;>
      simp [generateWithClaude, hk]
  · obtain ⟨h1, h2, -⟩ := generate_gemini config net prompt systemPrompt w hp
    rw [h1, h2]; subst hn
    rcases hkey with hkey | hkey <;> rw [hkey] at hk <;>
      simp [generateWithGemini, hk]

/-- The default configuration switched to Claude, whose key is still empty. -/
theorem generate_missing_key_witness :
    (generate (unkeyedConfig "claude") (answering ⟨200, "OK", none, 0⟩) "Summarize X" none
          World.init).1 = .error (.error ("请先配置" ++ "Claude" ++ " API Key")) ∧
      (generate (unkeyedConfig "claude") (answering ⟨200, "OK", none, 0⟩) "Summarize X" none
          World.init).2.fetchLog = World.init.fetchLog :=
  generate_missing_key (unkeyedConfig "claude") (answering ⟨200, "OK", none, 0⟩) "Summarize X"
    none World.init "Claude" (some "") (Or.inr (Or.inl ⟨rfl, rfl, rfl⟩)) (Or.inr rfl)

/-- C3: when the provider is none of `mock`, `openai`, `claude`, `gemini`,
`local`, `generate` is rejected with the error `不支持的AI提供商: ` followed by
the provider name, and the `fetch` log is left as it was. -/
theorem generate_unsupported_provider (config : Config) (net : Network) (prompt : String)
    (systemPrompt : Option String) (w : World)
    (h : config.provider ∉ ["mock", "openai", "claude", "gemini", "local"]) :
    (generate config net prompt systemPrompt w).1 =
        .error (.error ("不支持的AI提供商: " ++ config.provider)) ∧
      (generate config net prompt systemPrompt w).2.fetchLog = w.fetchLog := by
  simp only [List.mem_cons, List.mem_singleton, List.not_mem_nil, or_false, not_or] at h
  obtain ⟨h0, h1, h2, h3, h4⟩ := h
  obtain ⟨e1, e2, -⟩ := generate_dispatch config net prompt systemPrompt w _ h0 rfl
  rw [e1, e2]
  simp [h1, h2, h3, h4]

/-- The provider name `unknown`. -/
theorem generate_unsupported_provider_witness :
    (generate (keyedConfig "unknown") (answering ⟨200, "OK", none, 0⟩) "Summarize X" none
          World.init).1 = .error (.error ("不支持的AI提供商: " ++ "unknown")) ∧
      (generate (keyedConfig "unknown") (answering ⟨200, "OK", none, 0⟩) "Summarize X" none
          World.init).2.fetchLog = World.init.fetchLog :=
  generate_unsupported_provider (keyedConfig "unknown") (answering ⟨200, "OK", none, 0⟩)
    "Summarize X" none World.init (by decide)

/-! ## Request shaping -/

/-- C4: for every prompt `p` and system prompt `s`, once the key is configured
the one request sent for the provider `claude` carries `s` in the top-level
field `system` and the single message `user`/`p` in `messages`; the one request
sent for `gemini` (key configured) and for `local` carries the single text
`s ++ "\n\n" ++ p` when `s` is not empty and exactly `p` when `s` is empty. -/
theorem generate_request_shape (config : Config) (net : Network) (p s : String) (w : World) :
    (∀ k, config.provider = "claude" → config.apiKeys.claude = some k → k ≠ "" →
      (generate config net p (some s) w).2.fetchLog = w.fetchLog ++
        [⟨config.endpoints.claude, "POST",
          [("Content-Type", "application/json"), ("x-api-key", k),
            ("anthropic-version", "2023-06-01")],
          .claude config.models.claude config.requestConfig.maxTokens s [⟨"user", p⟩]⟩]) ∧
    (∀ k, config.provider = "gemini" → config.apiKeys.gemini = some k → k ≠ "" →
      (generate config net p (some s) w).2.fetchLog = w.fetchLog ++
        [⟨config.endpoints.gemini ++ "?key=" ++ k, "POST",
          [("Content-Type", "application/json")],
          .gemini [⟨[⟨if s = "" then p else s ++ "\n\n" ++ p⟩]⟩]
            config.requestConfig.temperature config.requestConfig.maxTokens⟩]) ∧
    (config.provider = "local" →
      (generate config net p (some s) w).2.fetchLog = w.fetchLog ++
        [⟨config.endpoints.localModel, "POST",
          [("Content-Type", "application/json")],
          .localModel config.models.localModel (if s = "" then p else s ++ "\n\n" ++ p) false
            config.requestConfig.temperature⟩]) := by
  refine ⟨?_, ?_, ?_⟩
  · intro k hp hk hne
    rw [(generate_claude config net p (some s) w hp).2.1]
    exact claude_log config net p s k w hk hne
  · intro k hp hk hne
    rw [(generate_gemini config net p (some s) w hp).2.1]
    have h := gemini_log config net p s k w hk hne
    simp only [Option.getD_some]
    rw [h]
    by_cases hs : s = "" <;> simp [hs]
  · intro hp
    rw [(generate_local config net p (some s) w hp).2.1]
    have h := local_log config net p s w
    simp only [Option.getD_some]
    rw [h]
    by_cases hs : s = "" <;> simp [hs]

/-- The prompts `Summarize X` and `You are concise.` sent to Claude, to Gemini
and to the local model. -/
theorem generate_request_shape_witness :
    (generate (keyedConfig "claude") (answering ⟨200, "OK", none, 0⟩) "Summarize X"
        (some "You are concise.") World.init).2.fetchLog =
      [⟨"https://api.anthropic.com/v1/messages", "POST",
        [("Content-Type", "application/json"), ("x-api-key", "sk-test"),
          ("anthropic-version", "2023-06-01")],
        .claude "claude-3-sonnet-20240229" 2000 "You are concise."
          [⟨"user", "Summarize X"⟩]⟩] ∧
    (generate (keyedConfig "gemini") (answering ⟨200, "OK", none, 0⟩) "Summarize X"
        (some "You are concise.") World.init).2.fetchLog =
      [⟨"https://generativelanguage.googleapis.com/v1beta/models/gemini-pro:generateContent?key=sk-test",
        "POST", [("Content-Type", "application/json")],
        .gemini [⟨[⟨"You are concise.\n\nSummarize X"⟩]⟩] (7 / 10) 2000⟩] ∧
    (generate (keyedConfig "local") (answering ⟨200, "OK", none, 0⟩) "Summarize X"
        (some "You are concise.") World.init).2.fetchLog =
      [⟨"http://localhost:11434/api/generate", "POST", [("Content-Type", "application/json")],
        .localModel "llama2" "You are concise.\n\nSummarize X" false (7 / 10)⟩] :=
  ⟨(generate_request_shape (keyedConfig "claude") (answering ⟨200, "OK", none, 0⟩)
      "Summarize X" "You are concise." World.init).1 "sk-test" rfl rfl (by decide),
    (generate_request_shape (keyedConfig "gemini") (answering ⟨200, "OK", none, 0⟩)
      "Summarize X" "You are concise." World.init).2.1 "sk-test" rfl rfl (by decide),
    (generate_request_shape (keyedConfig "local") (answering ⟨200, "OK", none, 0⟩)
      "Summarize X" "You are concise." World.init).2.2 rfl⟩

/-- C5: for every prompt `p` and system prompt `s`, once the key is configured
the one request sent for the provider `openai` has as `messages` the list
`[system/s, user/p]` when `s` is not empty and `[user/p]` when `s` is empty;
that list has at most two entries, ends with the entry `user`/`p`, which is its
only entry of role `user`, and has an entry of role `system` exactly when `s`
is not empty, in which case it is the first. -/
theorem generate_openai_messages (config : Config) (net : Network) (p s k : String)
    (w : World) (hp : config.provider = "openai") (hk : config.apiKeys.openai = some k)
    (hne : k ≠ "") :
    ∃ messages : List Message,
      (generate config net p (some s) w).2.fetchLog = w.fetchLog ++
        [⟨config.endpoints.openai, "POST",
          [("Content-Type", "application/json"), ("Authorization", "Bearer " ++ k)],
          .openai config.models.openai messages config.requestConfig.temperature
            config.requestConfig.maxTokens⟩] ∧
      messages = (if s = "" then [⟨"user", p⟩] else [⟨"system", s⟩, ⟨"user", p⟩]) ∧
      messages.length ≤ 2 ∧
      messages.getLast? = some ⟨"user", p⟩ ∧
      (messages.filter (fun m => m.role = "user")).length = 1 ∧
      ((∃ m ∈ messages, m.role = "system") ↔ s ≠ "") ∧
      (s ≠ "" → messages.head? = some ⟨"system", s⟩) := by
  refine ⟨if s = "" then [⟨"user", p⟩] else [⟨"system", s⟩, ⟨"user", p⟩], ?_, rfl, ?_⟩
  · rw [(generate_openai config net p (some s) w hp).2.1]
    have h := openai_log config net p s k w hk hne
    simp only [Option.getD_some]
    rw [h]
    by_cases hs : s = "" <;> simp [hs]
  · by_cases hs : s = "" <;> simp [hs]

/-- The prompts `Summarize X` and `You are concise.` sent to OpenAI. -/
theorem generate_openai_messages_witness :
    ∃ messages : List Message,
      (generate (keyedConfig "openai") (answering ⟨200, "OK", none, 0⟩) "Summarize X"
          (some "You are concise.") World.init).2.fetchLog = World.init.fetchLog ++
        [⟨(keyedConfig "openai").endpoints.openai, "POST",
          [("Content-Type", "application/json"), ("Authorization", "Bearer " ++ "sk-test")],
          .openai (keyedConfig "openai").models.openai messages
            (keyedConfig "openai").requestConfig.temperature
            (keyedConfig "openai").requestConfig.maxTokens⟩] ∧
      messages = (if "You are concise." = "" then [⟨"user", "Summarize X"⟩]
        else [⟨"system", "You are concise."⟩, ⟨"user", "Summarize X"⟩]) ∧
      messages.length ≤ 2 ∧
      messages.getLast? = some ⟨"user", "Summarize X"⟩ ∧
      (messages.filter (fun m => m.role = "user")).length = 1 ∧
      ((∃ m ∈ messages, m.role = "system") ↔ "You are concise." ≠ "") ∧
      ("You are concise." ≠ "" → messages.head? = some ⟨"system", "You are concise."⟩) :=
  generate_openai_messages (keyedConfig "openai") (answering ⟨200, "OK", none, 0⟩)
    "Summarize X" "You are concise." "sk-test" World.init rfl rfl (by decide)

/-! ## Responses with a non-success status -/

/-- C6, as stated, fails: with the provider `openai`, a key, the status 401 and
the body `{"error":{"message":"bad key"}}`, `generate` is rejected with the
message `OpenAI API错误: bad key`, which is not exactly `bad key`. -/
theorem generate_backend_message_not_exact :
    (generate (keyedConfig "openai")
        (answering ⟨401, "Unauthorized",
          some (.obj [("error", .obj [("message", .str "bad key")])]), 0⟩)
        "Summarize X" none World.init).1 = .error (.error "OpenAI API错误: bad key") ∧
    (generate (keyedConfig "openai")
        (answering ⟨401, "Unauthorized",
          some (.obj [("error", .obj [("message", .str "bad key")])]), 0⟩)
        "Summarize X" none World.init).1 ≠ .error (.error "bad key") := by
  refine ⟨rfl, ?_⟩
  intro h
  have h2 : (Except.error (Thrown.error "OpenAI API错误: bad key") : Except Thrown JVal) =
      .error (.error "bad key") := h
  simp at h2

/-- C6, amended: when the provider is `openai`, `claude` or `gemini` with its
key configured, the status is not a success and the body is an object whose
`error` is an object whose `message` is the non-empty string `m`, `generate` is
rejected with the error `<Name> API错误: ` followed by `m`, where `<Name>` is
`OpenAI`, `Claude` or `Gemini`. -/
theorem generate_backend_message (config : Config) (r : Response) (p : String)
    (s : Option String) (w : World) (name k m : String) (fields efields : List (String × JVal))
    (hprov : config.provider = "openai" ∧ name = "OpenAI" ∧ config.apiKeys.openai = some k ∨
      config.provider = "claude" ∧ name = "Claude" ∧ config.apiKeys.claude = some k ∨
      config.provider = "gemini" ∧ name = "Gemini" ∧ config.apiKeys.gemini = some k)
    (hne : k ≠ "") (hok : r.ok = false) (hbody : r.body = some (.obj fields))
    (he : lookupField "error" fields = some (.obj efields))
    (hm : lookupField "message" efields = some (.str m)) (hmne : m ≠ "") :
    (generate config (answering r) p s w).1 = .error (.error (name ++ " API错误: " ++ m)) := by
  rcases hprov with ⟨hp, hn, hk⟩ | ⟨hp, hn, hk⟩ | ⟨hp, hn, hk⟩
  · rw [(generate_openai config _ p s w hp).1]; subst hn
    simp [generateWithOpenAI, hk, hne, fetch, answering, hok, hbody, Response.json, getField,
      getFieldOpt, he, hm, hmne, bind, Except.bind, JVal.truthy, JVal.toStr, throw, throwThe,
      MonadExceptOf.throw]
  · rw [(generate_claude config _ p s w hp).1]; subst hn
    simp [generateWithClaude, hk, hne, fetch, answering, hok, hbody, Response.json, getField,
      getFieldOpt, he, hm, hmne, bind, Except.bind, JVal.truthy, JVal.toStr, throw, throwThe,
      MonadExceptOf.throw]
  · rw [(generate_gemini config _ p s w hp).1]; subst hn
    simp [generateWithGemini, hk, hne, fetch, answering, hok, hbody, Response.json, getField,
      getFieldOpt, he, hm, hmne, bind, Except.bind, JVal.truthy, JVal.toStr, throw, throwThe,
      MonadExceptOf.throw]

/-- Gemini answering 401 with the message `bad key`. -/
theorem generate_backend_message_witness :
    (generate (keyedConfig "gemini")
        (answering ⟨401, "Unauthorized",
          some (.obj [("error", .obj [("message", .str "bad key")])]), 0⟩)
        "Summarize X" none World.init).1 =
      .error (.error ("Gemini" ++ " API错误: " ++ "bad key")) :=
  generate_backend_message (keyedConfig "gemini")
    ⟨401, "Unauthorized", some (.obj [("error", .obj [("message", .str "bad key")])]), 0⟩
    "Summarize X" none World.init "Gemini" "sk-test" "bad key"
    [("error", .obj [("message", .str "bad key")])] [("message", .str "bad key")]
    (Or.inr (Or.inr ⟨rfl, rfl, rfl⟩)) (by decide) rfl rfl rfl rfl (by decide)

/-- C9 at a response that is not JSON: to the status 502 `Bad Gateway` with an
HTML body, `generate` for `openai`, `claude` and `gemini` is rejected with the
`SyntaxError` of `response.json()`, not with an error carrying `Bad Gateway`;
the fallback to `statusText` is reached only when the body is JSON (here `{}`),
and the local adapter, which does not decode the body, reports `Bad Gateway`. -/
theorem generate_undecodable_error_body :
    (generate (keyedConfig "openai") (answering ⟨502, "Bad Gateway", none, 0⟩)
        "Summarize X" none World.init).1 = .error .jsonSyntaxError ∧
    (generate (keyedConfig "claude") (answering ⟨502, "Bad Gateway", none, 0⟩)
        "Summarize X" none World.init).1 = .error .jsonSyntaxError ∧
    (generate (keyedConfig "gemini") (answering ⟨502, "Bad Gateway", none, 0⟩)
        "Summarize X" none World.init).1 = .error .jsonSyntaxError ∧
    (generate (keyedConfig "openai") (answering ⟨502, "Bad Gateway", some (.obj []), 0⟩)
        "Summarize X" none World.init).1 = .error (.error "OpenAI API错误: Bad Gateway") ∧
    (generate (keyedConfig "local") (answering ⟨502, "Bad Gateway", none, 0⟩)
        "Summarize X" none World.init).1 = .error (.error "本地模型错误: Bad Gateway") :=
  ⟨rfl, rfl, rfl, rfl, rfl⟩

/-! ## Responses with a success status -/

/-- C7, as stated, fails: with the provider `openai`, a key, and the status 200
with the body `{"choices":[{"message":{"content":""}}]}`, `generate` resolves
with the empty text. -/
theorem generate_returns_empty_text :
    (generate (keyedConfig "openai")
        (answering ⟨200, "OK",
          some (.obj [("choices", .arr [.obj [("message", .obj [("content", .str "")])]])]), 0⟩)
        "Summarize X" none World.init).1 = .ok (.str "") :=
  rfl

/-- C7, amended: for every supported provider with a valid configuration, every
prompt and every backend, `generate` either returns a value or fails, and it
succeeds with a text that is what the backend sent.  With the provider `mock`
it resolves with the fixed text, which is not empty.  With a network provider
it resolves only when the backend answered the one request sent with a success
status and a JSON body: on a rejected `fetch`, a non-success status or a body
that is not JSON it is rejected.  When the body of a success response carries
the text `t` where the adapter reads (`choices[0].message.content`,
`content[0].text`, `candidates[0].content.parts[0].text`, `response`, the
arrays taken at their first element), it resolves with exactly `t`, which is
not empty exactly when `t` is not: no check of emptiness is made. -/
theorem generate_returns_backend_text (config : Config) (net : Network) (r : Response)
    (p : String) (s : Option String) (w : World) (t : String)
    (data first inner part : JVal) (rest rest1 : List JVal)
    (hvalid : config.provider = "mock" ∨ config.provider = "local" ∨
      config.provider = "openai" ∧ (∃ k, config.apiKeys.openai = some k ∧ k ≠ "") ∨
      config.provider = "claude" ∧ (∃ k, config.apiKeys.claude = some k ∧ k ≠ "") ∨
      config.provider = "gemini" ∧ (∃ k, config.apiKeys.gemini = some k ∧ k ≠ "")) :
    (config.provider = "mock" →
      (generate config net p s w).1 = .ok (.str mockText) ∧ mockText ≠ "") ∧
    (config.provider ≠ "mock" → ∀ v, (generate config net p s w).1 = .ok v →
      ∃ req r0 d, (generate config net p s w).2.fetchLog = w.fetchLog ++ [req] ∧
        net req = .responded r0 ∧ r0.ok = true ∧ r0.body = some d) ∧
    (config.provider ≠ "mock" →
      (∀ req, net req = .rejected ∨
        ∃ r0, net req = .responded r0 ∧ (r0.ok = false ∨ r0.body = none)) →
      ∃ e, (generate config net p s w).1 = .error e) ∧
    (r.ok = true → r.body = some data →
      (config.provider = "openai" → data.HasMember "choices" (.arr (first :: rest)) →
        first.HasMember "message" inner → inner.HasMember "content" (.str t) →
        (generate config (answering r) p s w).1 = .ok (.str t)) ∧
      (config.provider = "claude" → data.HasMember "content" (.arr (first :: rest)) →
        first.HasMember "text" (.str t) →
        (generate config (answering r) p s w).1 = .ok (.str t)) ∧
      (config.provider = "gemini" → data.HasMember "candidates" (.arr (first :: rest)) →
        first.HasMember "content" inner → inner.HasMember "parts" (.arr (part :: rest1)) →
        part.HasMember "text" (.str t) →
        (generate config (answering r) p s w).1 = .ok (.str t)) ∧
      (config.provider = "local" → data.HasMember "response" (.str t) →
        (generate config (answering r) p s w).1 = .ok (.str t))) := by
  have hkeys : (config.provider = "openai" → ∃ k, config.apiKeys.openai = some k ∧ k ≠ "") ∧
      (config.provider = "claude" → ∃ k, config.apiKeys.claude = some k ∧ k ≠ "") ∧
      (config.provider = "gemini" → ∃ k, config.apiKeys.gemini = some k ∧ k ≠ "") := by
    refine ⟨?_, ?_, ?_⟩ <;> intro hp <;> rw [hp] at hvalid <;>
      rcases hvalid with h | h | h | h | h <;>
      first
        | exact h.2
        | exact absurd h (by decide)
        | exact absurd h.1 (by decide)
  have hsupp : config.provider ≠ "mock" → config.provider = "local" ∨
      config.provider = "openai" ∨ config.provider = "claude" ∨ config.provider = "gemini" := by
    intro hm
    rcases hvalid with h | h | h | h | h
    · exact absurd h hm
    · exact Or.inl h
    · exact Or.inr (Or.inl h.1)
    · exact Or.inr (Or.inr (Or.inl h.1))
    · exact Or.inr (Or.inr (Or.inr h.1))
  have hres : config.provider ≠ "mock" → ∀ v, (generate config net p s w).1 = .ok v →
      ∃ req r0 d, (generate config net p s w).2.fetchLog = w.fetchLog ++ [req] ∧
        net req = .responded r0 ∧ r0.ok = true ∧ r0.body = some d := by
    intro hm v hv
    rcases hsupp hm with hp | hp | hp | hp
    · obtain ⟨h1, h2, -⟩ := generate_local config net p s w hp
      rw [h1] at hv
      rw [h2]
      exact local_resolves config net p _ w v hv
    · obtain ⟨k, hk, hne⟩ := hkeys.1 hp
      obtain ⟨h1, h2, -⟩ := generate_openai config net p s w hp
      rw [h1] at hv
      rw [h2]
      exact openai_resolves config net p _ k w v hk hne hv
    · obtain ⟨k, hk, hne⟩ := hkeys.2.1 hp
      obtain ⟨h1, h2, -⟩ := generate_claude config net p s w hp
      rw [h1] at hv
      rw [h2]
      exact claude_resolves config net p _ k w v hk hne hv
    · obtain ⟨k, hk, hne⟩ := hkeys.2.2 hp
      obtain ⟨h1, h2, -⟩ := generate_gemini config net p s w hp
      rw [h1] at hv
      rw [h2]
      exact gemini_resolves config net p _ k w v hk hne hv
  refine ⟨?_, hres, ?_, ?_⟩
  · intro hp
    exact ⟨by simp [generate, hp, mockGenerate], by decide⟩
  · intro hm hbad
    cases hg : (generate config net p s w).1 with
    | error e => exact ⟨e, rfl⟩
    | ok v =>
      obtain ⟨req, r0, d, -, hnet, hok, hb⟩ := hres hm v hg
      rcases hbad req with hrej | ⟨r1, hnet1, hr1⟩
      · rw [hnet] at hrej
        cases hrej
      · rw [hnet] at hnet1
        cases hnet1
        rcases hr1 with h | h
        · rw [hok] at h
          cases h
        · rw [hb] at h
          cases h
  · intro hok hbody
    refine ⟨?_, ?_, ?_, ?_⟩
    · intro hp h1 h2 h3
      obtain ⟨k, hk, hne⟩ := hkeys.1 hp
      rw [(generate_openai config _ p s w hp).1]
      simp [generateWithOpenAI, hk, hne, fetch, answering, hok, hbody, Response.json, getIndex0,
        getField_of_hasMember _ _ _ h1, getField_of_hasMember _ _ _ h2,
        getField_of_hasMember _ _ _ h3, bind, Except.bind]
    · intro hp h1 h2
      obtain ⟨k, hk, hne⟩ := hkeys.2.1 hp
      rw [(generate_claude config _ p s w hp).1]
      simp [generateWithClaude, hk, hne, fetch, answering, hok, hbody, Response.json, getIndex0,
        getField_of_hasMember _ _ _ h1, getField_of_hasMember _ _ _ h2, bind, Except.bind]
    · intro hp h1 h2 h3 h4
      obtain ⟨k, hk, hne⟩ := hkeys.2.2 hp
      rw [(generate_gemini config _ p s w hp).1]
      simp [generateWithGemini, hk, hne, fetch, answering, hok, hbody, Response.json, getIndex0,
        getField_of_hasMember _ _ _ h1, getField_of_hasMember _ _ _ h2,
        getField_of_hasMember _ _ _ h3, getField_of_hasMember _ _ _ h4, bind, Except.bind]
    · intro hp h1
      rw [(generate_local config _ p s w hp).1]
      simp [generateWithLocal, fetch, answering, hok, hbody, Response.json,
        getField_of_hasMember _ _ _ h1, bind, Except.bind]

/-- Each part once: the mock; OpenAI behind a dead connection and the local
model answering 500, both rejected; the four backends answering 200, where the
arrays have two elements and the local text is empty. -/
theorem generate_returns_backend_text_witness :
    ((generate (keyedConfig "mock") (fun _ => .rejected) "Summarize X" none World.init).1 =
        .ok (.str mockText) ∧ mockText ≠ "") ∧
    (∃ e, (generate (keyedConfig "openai") (fun _ => .rejected) "Summarize X" none
        World.init).1 = .error e) ∧
    (∃ e, (generate (keyedConfig "local")
        (answering ⟨500, "Internal Server Error", none, 0⟩) "Summarize X" none
        World.init).1 = .error e) ∧
    (generate (keyedConfig "openai") (answering ⟨200, "OK", some openaiBody, 0⟩)
        "Summarize X" none World.init).1 = .ok (.str "X in short.") ∧
    (generate (keyedConfig "claude") (answering ⟨200, "OK", some claudeBody, 0⟩)
        "Summarize X" none World.init).1 = .ok (.str "X in short.") ∧
    (generate (keyedConfig "gemini") (answering ⟨200, "OK", some geminiBody, 0⟩)
        "Summarize X" none World.init).1 = .ok (.str "X in short.") ∧
    (generate (keyedConfig "local") (answering ⟨200, "OK", some localBody, 0⟩)
        "Summarize X" none World.init).1 = .ok (.str "") :=
  ⟨(generate_returns_backend_text (keyedConfig "mock") (fun _ => .rejected)
      ⟨200, "OK", none, 0⟩ "Summarize X" none World.init "" .null .null .null .null [] []
      (Or.inl rfl)).1 rfl,
    (generate_returns_backend_text (keyedConfig "openai") (fun _ => .rejected)
      ⟨200, "OK", none, 0⟩ "Summarize X" none World.init "" .null .null .null .null [] []
      (Or.inr (Or.inr (Or.inl ⟨rfl, "sk-test", rfl, by decide⟩)))).2.2.1
      (by decide) (fun _ => Or.inl rfl),
    (generate_returns_backend_text (keyedConfig "local")
      (answering ⟨500, "Internal Server Error", none, 0⟩)
      ⟨200, "OK", none, 0⟩ "Summarize X" none World.init "" .null .null .null .null [] []
      (Or.inr (Or.inl rfl))).2.2.1
      (by decide) (fun _ => Or.inr ⟨_, rfl, Or.inl rfl⟩),
    ((generate_returns_backend_text (keyedConfig "openai") (fun _ => .rejected)
      ⟨200, "OK", some openaiBody, 0⟩ "Summarize X" none World.init "X in short." openaiBody
      (.obj [("message", .obj [("role", .str "assistant"), ("content", .str "X in short.")])])
      (.obj [("role", .str "assistant"), ("content", .str "X in short.")]) .null
      [.obj [("message", .obj [("role", .str "assistant"), ("content", .str "Another.")])]] []
      (Or.inr (Or.inr (Or.inl ⟨rfl, "sk-test", rfl, by decide⟩)))).2.2.2 rfl rfl).1 rfl
      ⟨_, rfl, by decide, .tail _ (.head _)⟩
      ⟨_, rfl, by decide, .head _⟩
      ⟨_, rfl, by decide, .tail _ (.head _)⟩,
    ((generate_returns_backend_text (keyedConfig "claude") (fun _ => .rejected)
      ⟨200, "OK", some claudeBody, 0⟩ "Summarize X" none World.init "X in short." claudeBody
      (.obj [("type", .str "text"), ("text", .str "X in short.")]) .null .null
      [.obj [("type", .str "text"), ("text", .str "Another.")]] []
      (Or.inr (Or.inr (Or.inr (Or.inl ⟨rfl, "sk-test", rfl, by decide⟩))))).2.2.2 rfl rfl).2.1
      rfl
      ⟨_, rfl, by decide, .head _⟩
      ⟨_, rfl, by decide, .tail _ (.head _)⟩,
    ((generate_returns_backend_text (keyedConfig "gemini") (fun _ => .rejected)
      ⟨200, "OK", some geminiBody, 0⟩ "Summarize X" none World.init "X in short." geminiBody
      (.obj [("content", .obj [("parts", .arr [
        .obj [("text", .str "X in short.")], .obj [("text", .str "Another.")]])])])
      (.obj [("parts", .arr [
        .obj [("text", .str "X in short.")], .obj [("text", .str "Another.")]])])
      (.obj [("text", .str "X in short.")])
      [.obj [("content", .obj [("parts", .arr [.obj [("text", .str "Elsewhere.")]])])]]
      [.obj [("text", .str "Another.")]]
      (Or.inr (Or.inr (Or.inr (Or.inr ⟨rfl, "sk-test", rfl, by decide⟩))))).2.2.2
        rfl rfl).2.2.1 rfl
      ⟨_, rfl, by decide, .head _⟩
      ⟨_, rfl, by decide, .head _⟩
      ⟨_, rfl, by decide, .head _⟩
      ⟨_, rfl, by decide, .head _⟩,
    ((generate_returns_backend_text (keyedConfig "local") (fun _ => .rejected)
      ⟨200, "OK", some localBody, 0⟩ "Summarize X" none World.init "" localBody
      .null .null .null [] []
      (Or.inr (Or.inl rfl))).2.2.2 rfl rfl).2.2.2 rfl
      ⟨_, rfl, by decide, .tail _ (.head _)⟩⟩

/-- C8 at a local response without the field `response`: to the status 200 with
the body `{}`, `generate` for the provider `local` is not rejected but resolves,
with `undefined`, which is no string; the three other adapters are rejected,
with the `TypeError` of the property read, when the field they read is missing
(body `{}`, and for `openai` also `{"choices":[]}`). -/
theorem generate_local_missing_response :
    (generate (keyedConfig "local") (answering ⟨200, "OK", some (.obj []), 0⟩)
        "Summarize X" none World.init).1 = .ok .undefined ∧
    (generate (keyedConfig "openai") (answering ⟨200, "OK", some (.obj []), 0⟩)
        "Summarize X" none World.init).1 = .error .typeError ∧
    (generate (keyedConfig "openai")
        (answering ⟨200, "OK", some (.obj [("choices", .arr [])]), 0⟩)
        "Summarize X" none World.init).1 = .error .typeError ∧
    (generate (keyedConfig "claude") (answering ⟨200, "OK", some (.obj []), 0⟩)
        "Summarize X" none World.init).1 = .error .typeError ∧
    (generate (keyedConfig "gemini") (answering ⟨200, "OK", some (.obj []), 0⟩)
        "Summarize X" none World.init).1 = .error .typeError :=
  ⟨rfl, rfl, rfl, rfl, rfl⟩

/-! ## The configured timeout -/

/-- C10 at a response slower than the timeout: `generate` settles the same way
whatever `requestConfig.timeout` is set to; with the provider `openai`, a key,
the default timeout of 30000 ms and a response that takes 60000 ms to arrive,
it is not rejected but waits the 60000 ms and resolves with the text of the
response, after its one request. -/
theorem generate_ignores_timeout :
    (∀ (config : Config) (net : Network) (p : String) (s : Option String) (w : World)
        (t : Nat),
      generate { config with requestConfig := { config.requestConfig with timeout := t } }
        net p s w = generate config net p s w) ∧
    (keyedConfig "openai").requestConfig.timeout = 30000 ∧
    (generate (keyedConfig "openai")
        (answering ⟨200, "OK",
          some (.obj [("choices", .arr [.obj [("message", .obj [("content", .str "late")])]])]),
          60000⟩)
        "Summarize X" none World.init).1 = .ok (.str "late") ∧
    (generate (keyedConfig "openai")
        (answering ⟨200, "OK",
          some (.obj [("choices", .arr [.obj [("message", .obj [("content", .str "late")])]])]),
          60000⟩)
        "Summarize X" none World.init).2.clock = 60000 ∧
    (generate (keyedConfig "openai")
        (answering ⟨200, "OK",
          some (.obj [("choices", .arr [.obj [("message", .obj [("content", .str "late")])]])]),
          60000⟩)
        "Summarize X" none World.init).2.fetchLog.length = 1 :=
  ⟨fun _ _ _ _ _ _ => rfl, rfl, rfl, rfl, rfl⟩

end AxureELSA
